import Mathlib

/-!
Verification of the magnitude-modeling core of the orrery repository
(`base/magnitude.py`, `base/classical.py`) against its natural-language
specification.

The Python code is embedded shallowly over the real numbers:

* 3-vectors of floats become `Vec3` (a record of three reals);
* the external skyfield vector primitives (`length_of`, `angle_between`,
  numpy `arctan2`) are embedded by their real-arithmetic definitions;
* Python `float` arithmetic becomes exact real arithmetic;
* `Optional[float]` results become `Option ℝ`;
* the partial library functions `math.log10`, `math.log` and `math.pow`
  (which raise `ValueError` outside their domains) are embedded as
  checked operations in the error carrier `PyResult`, so that "the code
  raises an exception" is representable as `PyResult.raises`.
-/

noncomputable section

/-- A 3-vector of reals, embedding the numpy `float64` 3-vectors (in AU)
that skyfield hands to the magnitude code. -/
structure Vec3 where
  x : ℝ
  y : ℝ
  z : ℝ

/-- Componentwise vector addition (numpy `+`). -/
def Vec3.add (a b : Vec3) : Vec3 := ⟨a.x + b.x, a.y + b.y, a.z + b.z⟩

instance : Add Vec3 := ⟨Vec3.add⟩

/-- Componentwise vector negation (numpy unary `-`). -/
def Vec3.neg (a : Vec3) : Vec3 := ⟨-a.x, -a.y, -a.z⟩

instance : Neg Vec3 := ⟨Vec3.neg⟩

/-- Componentwise vector subtraction (numpy `-`). -/
def Vec3.sub (a b : Vec3) : Vec3 := ⟨a.x - b.x, a.y - b.y, a.z - b.z⟩

instance : Sub Vec3 := ⟨Vec3.sub⟩

/-- Scalar multiplication (numpy broadcast `vector * scalar`). -/
def Vec3.smul (c : ℝ) (a : Vec3) : Vec3 := ⟨c * a.x, c * a.y, c * a.z⟩

instance : Zero Vec3 := ⟨⟨0, 0, 0⟩⟩

/-- The euclidean dot product of two 3-vectors. -/
def Vec3.dot (a b : Vec3) : ℝ := a.x * b.x + a.y * b.y + a.z * b.z

/-- Modelled from the spec (external collaborator, `skyfield.functions.length_of`):
the "distance/length" operation on 3-vectors, the square root of the sum of
the squared components. -/
def length_of (v : Vec3) : ℝ := Real.sqrt (v.x * v.x + v.y * v.y + v.z * v.z)

/-- Modelled from the spec (external collaborator, `numpy.arctan2`): the
two-argument arctangent, embedded by its real-arithmetic case analysis. -/
def arctan2 (y x : ℝ) : ℝ :=
  if 0 < x then Real.arctan (y / x)
  else if x < 0 then
    if 0 ≤ y then Real.arctan (y / x) + Real.pi else Real.arctan (y / x) - Real.pi
  else
    if 0 < y then Real.pi / 2 else if y < 0 then -(Real.pi / 2) else 0

/-- Modelled from the spec (external collaborator, `skyfield.functions.angle_between`):
the "angle between two vectors" operation, in radians.  skyfield computes it by
the numerically stable two-argument-arctangent form
`2 * arctan2(|u*|v| - v*|u||, |u*|v| + v*|u||)`; for nonzero vectors this equals
the textbook `arccos` of the normalized dot product (proved below in
`angle_between_eq_arccos`). -/
def angle_between (u v : Vec3) : ℝ :=
  let a := Vec3.smul (length_of v) u
  let b := Vec3.smul (length_of u) v
  2 * arctan2 (length_of (a - b)) (length_of (a + b))

/-- The spec's own wording of the external angle primitive ("angle between two
vectors ... in radians"): the arccosine of the normalized dot product.  Used as
the specification side of the geometry-derivation refinement claim. -/
def specAngleBetween (u v : Vec3) : ℝ :=
  Real.arccos (Vec3.dot u v / (length_of u * length_of v))

/-- Modelled from the spec (external collaborator, `skyfield.constants.RAD2DEG`). -/
def RAD2DEG : ℝ := 180 / Real.pi

/-- Modelled from the spec (external collaborator, `skyfield.constants.DEG2RAD`). -/
def DEG2RAD : ℝ := Real.pi / 180

/-- Log10 of the number of AU in a parsec (`LOG_AU_TO_PC` in `magnitude.py`). -/
def LOG_AU_TO_PC : ℝ := Real.logb 10 (Real.pi / 648000)

/-- The data the magnitude code reads off a skyfield `Astrometric` position:
the observer's barycentric position vector (`center_barycentric.position.au`),
the observed relative position vector (`position.au`), and the UTC calendar
year of the optional timestamp (`t.utc_datetime().year`, `none` when `t` is
`None`). -/
structure Astrometric where
  centerBarycentricAu : Vec3
  positionAu : Vec3
  tYear : Option Int

/-- The astrometric distance in AU (`position.distance().au` in skyfield:
the length of the relative position vector). -/
def Astrometric.distanceAu (p : Astrometric) : ℝ := length_of p.positionAu

/-- `ReflectionParameters` of `magnitude.py`: the underlying position together
with the Sun-object distance `r`, the observer-object distance `delta` (AU)
and the phase angle `alpha` (degrees). -/
structure ReflectionParameters where
  position : Astrometric
  r : ℝ
  delta : ℝ
  alpha : ℝ

/-- `ReflectionParameters.make` of `magnitude.py`: treats the Sun as sitting at
the solar-system barycenter, so `sunToObserver` is the observer's barycentric
position vector, `sunToPlanet = sunToObserver + observerToPlanet`, and the
phase angle is the angle between `-sunToPlanet` and `-observerToPlanet`
converted to degrees. -/
def ReflectionParameters.make (position : Astrometric) : ReflectionParameters :=
  let sunToObserver := position.centerBarycentricAu
  let observerToPlanet := position.positionAu
  let sunToPlanet := sunToObserver + observerToPlanet
  { position := position
    r := length_of sunToPlanet
    delta := length_of observerToPlanet
    alpha := angle_between (-sunToPlanet) (-observerToPlanet) * RAD2DEG }

/-- Result of running a piece of Python code that may raise an exception:
either it raises, or it returns a value. -/
inductive PyResult (α : Type) where
  | raises : PyResult α
  | ok : α → PyResult α

/-- Checked embedding of Python's `math.log10`, which raises `ValueError`
unless its argument is positive. -/
def log10Checked (v : ℝ) : PyResult ℝ :=
  if 0 < v then .ok (Real.logb 10 v) else .raises

/-- Checked embedding of Python's `math.log`, which raises `ValueError`
unless its argument is positive. -/
def logChecked (v : ℝ) : PyResult ℝ :=
  if 0 < v then .ok (Real.log v) else .raises

/-- Checked embedding of Python's `math.pow` at the non-integral exponents
used by the magnitude code: it raises `ValueError` for a negative base. -/
def powChecked (v e : ℝ) : PyResult ℝ :=
  if 0 ≤ v then .ok (v ^ e) else .raises

/-- The `distanceFactor` property of `ReflectionParameters`:
`5 * log10(r * delta)`, in checked form. -/
def ReflectionParameters.distanceFactorChecked (p : ReflectionParameters) : PyResult ℝ :=
  match log10Checked (p.r * p.delta) with
  | .raises => .raises
  | .ok l => .ok (5 * l)

/-- The closed family of illumination models of `magnitude.py`, one constructor
per Python class, each carrying its constructor parameters. -/
inductive IlluminatedBody where
  | distantLuminous (apparentMagnitude : ℝ)
  | proximateLuminous (absoluteMagnitude : ℝ)
  | mercury
  | venus
  | earth
  | mars
  | jupiter
  | saturn
  | uranus
  | neptune
  | hgReflecting (h g : ℝ)
  | solarActivated (g k : ℝ)

/-- Evaluate the polynomial with the given coefficient list, lowest power
first, by the accumulator loop of `_polynomial` in `magnitude.py`. -/
def polyAux (x : ℝ) : List ℝ → ℝ → ℝ → ℝ
  | [], acc, _ => acc
  | coefficient :: rest, acc, xx => polyAux x rest (acc + coefficient * xx) (xx * x)

/-- The `_polynomial` helper of `magnitude.py`: evaluates the sum of
`a_n * x^n` over the coefficient list. -/
def _polynomial (x : ℝ) (coefficients : List ℝ) : ℝ := polyAux x coefficients 0 1

/-- `Mercury.q`: a single 7-term polynomial, defined for every phase angle. -/
def Mercury.q (params : ReflectionParameters) : PyResult (Option ℝ) :=
  .ok (some (_polynomial params.alpha
    [-0.613, 6.3280e-02, -1.6336e-03, 3.3644e-05, -3.4265e-07, 1.6893e-09, -3.0334e-12]))

/-- `Venus.q`: a two-regime polynomial with branch point at `alpha = 163.7`. -/
def Venus.q (params : ReflectionParameters) : PyResult (Option ℝ) :=
  if params.alpha < 163.7 then
    .ok (some (_polynomial params.alpha [-4.384, -1.044e-3, 3.687e-4, -2.814e-6, 8.938e-9]))
  else
    .ok (some (_polynomial params.alpha [240.44228 - 4.384, -2.81914, 8.39034e-3]))

/-- `Earth.q`: a single 3-term polynomial. -/
def Earth.q (params : ReflectionParameters) : PyResult (Option ℝ) :=
  .ok (some (_polynomial params.alpha [-3.99, -1.06e-3, 2.054e-4]))

/-- The coefficients of the low branch (`alpha ≤ 50`) of `Mars.q`. -/
def Mars.lowCoeffs : List ℝ := [-1.601, 2.267e-2, -1.302e-4]

/-- The coefficients of the high branch (`50 < alpha ≤ 120`) of `Mars.q`,
with its `+1.234` level shift on the constant term. -/
def Mars.highCoeffs : List ℝ := [-1.601 + 1.234, -2.573e-2, 3.445e-4]

/-- `Mars.q`: a 3-term polynomial for `alpha ≤ 50`, a different 3-term
polynomial for `50 < alpha ≤ 120`, undefined beyond `120`. -/
def Mars.q (params : ReflectionParameters) : PyResult (Option ℝ) :=
  if params.alpha ≤ 50 then
    .ok (some (_polynomial params.alpha Mars.lowCoeffs))
  else if params.alpha ≤ 120 then
    .ok (some (_polynomial params.alpha Mars.highCoeffs))
  else
    .ok none

/-- `Jupiter.q`: a 3-term polynomial for `alpha < 12`, otherwise
`-9.395 - 0.033 - 2.5 * log10(P(alpha/180))` for a degree-5 polynomial `P`
(the `log10` raises if `P` is nonpositive). -/
def Jupiter.q (params : ReflectionParameters) : PyResult (Option ℝ) :=
  if params.alpha < 12 then
    .ok (some (_polynomial params.alpha [-9.395, -3.7e-4, 6.16e-4]))
  else
    match log10Checked (_polynomial (params.alpha / 180)
        [1, -1.507, -0.363, -0.062, 2.809, -1.876]) with
    | .raises => .raises
    | .ok l => .ok (some (-9.395 - 0.033 - 2.5 * l))

/-- `Saturn.q`: for `alpha < 6.5` a base term plus a ring-latitude-modulated
sine term with the ring latitude `beta` stubbed to `0`; for
`6.5 ≤ alpha < 150` a 5-term polynomial; undefined at `alpha ≥ 150`. -/
def Saturn.q (params : ReflectionParameters) : PyResult (Option ℝ) :=
  let beta : ℝ := 0
  if params.alpha < 6.5 then
    let beta_factor := Real.sin beta * (1.825 - 0.378 * Real.exp (-2.25 * params.alpha))
    .ok (some (-8.914 + 2.6e-2 * params.alpha + beta_factor))
  else if params.alpha < 150 then
    .ok (some (_polynomial params.alpha [-8.914 + 0.026, 2.446e-4, 2.672e-2, -1.505e-6, 4.767e-9]))
  else
    .ok none

/-- `Uranus.q`: for `alpha < 3.1` a 3-term polynomial minus a pole-angle
correction with `phiprime` stubbed to `0`; undefined otherwise. -/
def Uranus.q (params : ReflectionParameters) : PyResult (Option ℝ) :=
  let phiprime : ℝ := 0
  if params.alpha < 3.1 then
    .ok (some (-8.4e-4 * phiprime + _polynomial params.alpha [-7.110, 6.587e-3, 1.045e-4]))
  else
    .ok none

/-- `Neptune.q`: a single 3-term polynomial, valid only when `alpha < 133`
and the position carries a timestamp with calendar year at least 2000
(the conjunction is evaluated left to right, as in the Python source). -/
def Neptune.q (params : ReflectionParameters) : PyResult (Option ℝ) :=
  if params.alpha < 133 then
    match params.position.tYear with
    | some year =>
      if 2000 ≤ year then
        .ok (some (_polynomial params.alpha [-7.00, 7.944e-3, 9.617e-5]))
      else
        .ok none
    | none => .ok none
  else
    .ok none

/-- `HGReflectingBody.q`: the generic two-parameter `(H, G)` phase law for
minor planets.  `math.pow` raises for a negative base and `math.log` raises
for a nonpositive argument, which the checked operations record. -/
def HGReflectingBody.q (h g : ℝ) (params : ReflectionParameters) : PyResult (Option ℝ) :=
  let halfTan := Real.tan (0.5 * params.alpha * DEG2RAD)
  match powChecked halfTan 0.63 with
  | .raises => .raises
  | .ok e1 =>
    match powChecked halfTan 1.22 with
    | .raises => .raises
    | .ok e2 =>
      let phi1 := Real.exp (-3.33 * e1)
      let phi2 := Real.exp (-1.87 * e2)
      match logChecked ((1 - g) * phi1 + g * phi2) with
      | .raises => .raises
      | .ok l => .ok (some (h + -2.5 * l))

/-- `ReflectingBody.magnitude`: derive the `ReflectionParameters`, evaluate the
model's `q`, and add the distance factor when `q` is defined (the Python
conditional expression only evaluates `distanceFactor` when `q is not None`). -/
def reflectingMagnitude (q : ReflectionParameters → PyResult (Option ℝ))
    (position : Astrometric) : PyResult (Option ℝ) :=
  let params := ReflectionParameters.make position
  match q params with
  | .raises => .raises
  | .ok none => .ok none
  | .ok (some qv) =>
    match params.distanceFactorChecked with
    | .raises => .raises
    | .ok df => .ok (some (qv + df))

/-- The `magnitude` method of the illumination-model family, dispatching on
the variant exactly as the Python subclasses do. -/
def IlluminatedBody.magnitude (b : IlluminatedBody) (position : Astrometric) :
    PyResult (Option ℝ) :=
  match b with
  | .distantLuminous m => .ok (some m)
  | .proximateLuminous m =>
    match log10Checked position.distanceAu with
    | .raises => .raises
    | .ok l => .ok (some (m + 5 * (l + LOG_AU_TO_PC - 1)))
  | .mercury => reflectingMagnitude Mercury.q position
  | .venus => reflectingMagnitude Venus.q position
  | .earth => reflectingMagnitude Earth.q position
  | .mars => reflectingMagnitude Mars.q position
  | .jupiter => reflectingMagnitude Jupiter.q position
  | .saturn => reflectingMagnitude Saturn.q position
  | .uranus => reflectingMagnitude Uranus.q position
  | .neptune => reflectingMagnitude Neptune.q position
  | .hgReflecting h g => reflectingMagnitude (HGReflectingBody.q h g) position
  | .solarActivated g k =>
    let params := ReflectionParameters.make position
    match log10Checked params.delta with
    | .raises => .raises
    | .ok l1 =>
      match log10Checked params.r with
      | .raises => .raises
      | .ok l2 => .ok (some (g + 5 * l1 + 2.5 * k * l2))

/-- The part of a skyfield `VectorFunction` that model selection reads:
its ephemeris `target` identifier. -/
structure VectorFunction where
  target : Nat

/-- The part of a pandas catalog row that model selection reads: the five
optional named magnitude fields (`some` when the name is in the row's index). -/
structure DataFrame where
  magnitude_H : Option ℝ
  magnitude_G : Option ℝ
  magnitude_g : Option ℝ
  magnitude_k : Option ℝ
  magnitude : Option ℝ

/-- The `STANDARD_BODIES` table of `magnitude.py`: the fixed hand-built model
instances for the Solar System major bodies, keyed by ephemeris target. -/
def STANDARD_BODIES : List (Nat × IlluminatedBody) :=
  [ (1, .mercury), (199, .mercury),
    (2, .venus), (299, .venus),
    (3, .earth), (399, .earth),
    (4, .mars),
    (5, .jupiter),
    (6, .saturn),
    (7, .uranus),
    (8, .neptune),
    (9, .hgReflecting (-0.45) 0.15),
    (10, .proximateLuminous 4.83) ]

/-- The catalog-row cascade of `IlluminatedBody.make`: `(magnitude_H,
magnitude_G)` first, then `(magnitude_g, magnitude_k)`, then the scalar
`magnitude`, else nothing. -/
def makeFromDataFrame : Option DataFrame → Option IlluminatedBody
  | none => none
  | some df =>
    match df.magnitude_H, df.magnitude_G with
    | some h, some g => some (.hgReflecting h g)
    | _, _ =>
      match df.magnitude_g, df.magnitude_k with
      | some g, some k => some (.solarActivated g k)
      | _, _ =>
        match df.magnitude with
        | some m => some (.distantLuminous m)
        | none => none

/-- `IlluminatedBody.make`: model selection.  A position whose target is in
`STANDARD_BODIES` binds the table's instance; otherwise the catalog-row
cascade runs. -/
def IlluminatedBody.make (position : Option VectorFunction)
    (dataFrame : Option DataFrame) : Option IlluminatedBody :=
  match position with
  | some p =>
    match STANDARD_BODIES.lookup p.target with
    | some body => some body
    | none => makeFromDataFrame dataFrame
  | none => makeFromDataFrame dataFrame

/-- A zodiac sector (`classical.py`). -/
structure Zodiac where
  name : String
  symbol : String

/-- The `ZODIAC` table of `classical.py`: the twelve 30-degree sectors. -/
def ZODIAC : List Zodiac :=
  [ ⟨"Ari", "♈"⟩, ⟨"Tau", "♉"⟩, ⟨"Gem", "♊"⟩, ⟨"Cnc", "♋"⟩,
    ⟨"Leo", "♌"⟩, ⟨"Vir", "♍"⟩, ⟨"Lib", "♎"⟩, ⟨"Sco", "♏"⟩,
    ⟨"Sgr", "♐"⟩, ⟨"Cap", "♑"⟩, ⟨"Aqr", "♒"⟩, ⟨"Psc", "♓"⟩ ]

/-- The fields of `EclipticPosition` in `classical.py`, with skyfield `Angle`
and `AngleRate` values embedded by their measure in degrees (resp. degrees
per day). -/
structure EclipticPosition where
  latitude : ℝ
  latitudeRate : ℝ
  longitude : ℝ
  longitudeRate : ℝ

/-- `EclipticPosition.classicalLongitude`: Python's `divmod(angle, 30)`
yields the floor quotient and the remainder `angle - 30 * floor(angle / 30)`;
the sector is `ZODIAC[int(index) % 12]`, where Python's `%` on integers is
the nonnegative remainder. -/
def EclipticPosition.classicalLongitude (e : EclipticPosition) : Zodiac × ℝ :=
  let angle := e.longitude
  let index : ℤ := ⌊angle / 30⌋
  let remainder : ℝ := angle - 30 * (index : ℝ)
  (ZODIAC.get ⟨(index % 12).toNat, by
    have h1 : 0 ≤ index % 12 := Int.emod_nonneg index (by norm_num)
    have h2 : index % 12 < 12 := Int.emod_lt_of_pos index (by norm_num)
    simp only [ZODIAC, List.length]
    omega⟩, remainder)

@[simp] theorem Vec3.add_x (a b : Vec3) : (a + b).x = a.x + b.x := rfl

@[simp] theorem Vec3.add_y (a b : Vec3) : (a + b).y = a.y + b.y := rfl

@[simp] theorem Vec3.add_z (a b : Vec3) : (a + b).z = a.z + b.z := rfl

@[simp] theorem Vec3.sub_x (a b : Vec3) : (a - b).x = a.x - b.x := rfl

@[simp] theorem Vec3.sub_y (a b : Vec3) : (a - b).y = a.y - b.y := rfl

@[simp] theorem Vec3.sub_z (a b : Vec3) : (a - b).z = a.z - b.z := rfl

@[simp] theorem Vec3.neg_x (a : Vec3) : (-a).x = -a.x := rfl

@[simp] theorem Vec3.neg_y (a : Vec3) : (-a).y = -a.y := rfl

@[simp] theorem Vec3.neg_z (a : Vec3) : (-a).z = -a.z := rfl

@[simp] theorem Vec3.smul_x (c : ℝ) (a : Vec3) : (Vec3.smul c a).x = c * a.x := rfl

@[simp] theorem Vec3.smul_y (c : ℝ) (a : Vec3) : (Vec3.smul c a).y = c * a.y := rfl

@[simp] theorem Vec3.smul_z (c : ℝ) (a : Vec3) : (Vec3.smul c a).z = c * a.z := rfl

@[simp] theorem Vec3.zero_x : (0 : Vec3).x = 0 := rfl

@[simp] theorem Vec3.zero_y : (0 : Vec3).y = 0 := rfl

@[simp] theorem Vec3.zero_z : (0 : Vec3).z = 0 := rfl

theorem Vec3.dot_self_nonneg (v : Vec3) : 0 ≤ Vec3.dot v v := by
  unfold Vec3.dot
  nlinarith [sq_nonneg v.x, sq_nonneg v.y, sq_nonneg v.z]

theorem length_of_nonneg (v : Vec3) : 0 ≤ length_of v := Real.sqrt_nonneg _

theorem length_of_eq_sqrt_dot (v : Vec3) : length_of v = Real.sqrt (Vec3.dot v v) := rfl

theorem length_of_mul_self (v : Vec3) : length_of v * length_of v = Vec3.dot v v :=
  Real.mul_self_sqrt (Vec3.dot_self_nonneg v)

theorem length_of_eq_zero_iff (v : Vec3) : length_of v = 0 ↔ v = 0 := by
  unfold length_of
  rw [Real.sqrt_eq_zero (by nlinarith [sq_nonneg v.x, sq_nonneg v.y, sq_nonneg v.z] :
    (0 : ℝ) ≤ v.x * v.x + v.y * v.y + v.z * v.z)]
  constructor
  · intro h
    obtain ⟨a, b, c⟩ := v
    simp only at h
    have ha : a = 0 := by nlinarith [sq_nonneg b, sq_nonneg c]
    have hb : b = 0 := by nlinarith [sq_nonneg a, sq_nonneg c]
    have hc : c = 0 := by nlinarith [sq_nonneg a, sq_nonneg b]
    subst ha; subst hb; subst hc; rfl
  · rintro rfl
    norm_num

theorem length_of_pos {v : Vec3} (hv : v ≠ 0) : 0 < length_of v := by
  rcases lt_or_eq_of_le (length_of_nonneg v) with h | h
  · exact h
  · exact absurd ((length_of_eq_zero_iff v).1 h.symm) hv

theorem Vec3.neg_ne_zero {v : Vec3} (hv : v ≠ 0) : -v ≠ 0 := by
  intro h
  apply hv
  obtain ⟨a, b, c⟩ := v
  have hx := congrArg Vec3.x h
  have hy := congrArg Vec3.y h
  have hz := congrArg Vec3.z h
  simp only [Vec3.neg_x, Vec3.neg_y, Vec3.neg_z, Vec3.zero_x, Vec3.zero_y, Vec3.zero_z] at hx hy hz
  have ha : a = 0 := by linarith
  have hb : b = 0 := by linarith
  have hc : c = 0 := by linarith
  subst ha; subst hb; subst hc; rfl

theorem arctan_nonneg_of_nonneg {t : ℝ} (h : 0 ≤ t) : 0 ≤ Real.arctan t := by
  rw [← Real.arctan_zero]
  exact Real.arctan_strictMono.monotone h

/-- Cauchy-Schwarz for 3-vectors, by the Lagrange identity. -/
theorem Vec3.dot_sq_le (u v : Vec3) :
    Vec3.dot u v * Vec3.dot u v ≤ Vec3.dot u u * Vec3.dot v v := by
  unfold Vec3.dot
  nlinarith [sq_nonneg (u.x * v.y - u.y * v.x), sq_nonneg (u.x * v.z - u.z * v.x),
    sq_nonneg (u.y * v.z - u.z * v.y)]

theorem eq_of_sq_eq_sq_of_nonneg {a b : ℝ} (ha : 0 ≤ a) (hb : 0 ≤ b) (h : a ^ 2 = b ^ 2) :
    a = b := by
  rw [← Real.sqrt_sq ha, h, Real.sqrt_sq hb]

/-- On the closed nonnegative quadrant, `arctan2` lands in `[0, π/2]`. -/
theorem arctan2_nonneg_bounds {y x : ℝ} (hy : 0 ≤ y) (hx : 0 ≤ x) :
    0 ≤ arctan2 y x ∧ arctan2 y x ≤ Real.pi / 2 := by
  unfold arctan2
  rcases lt_or_eq_of_le hx with hx' | hx'
  · rw [if_pos hx']
    exact ⟨arctan_nonneg_of_nonneg (div_nonneg hy hx'.le), (Real.arctan_lt_pi_div_two _).le⟩
  · rw [if_neg (by rw [← hx']; exact lt_irrefl 0), if_neg (by rw [← hx']; exact lt_irrefl 0)]
    rcases lt_or_eq_of_le hy with hy' | hy'
    · rw [if_pos hy']
      exact ⟨by positivity, le_refl _⟩
    · rw [if_neg (by rw [← hy']; exact lt_irrefl 0), if_neg (by rw [← hy']; exact lt_irrefl 0)]
      exact ⟨le_refl _, by positivity⟩

/-- Unfolding equation for `angle_between`. -/
theorem angle_between_def (u v : Vec3) : angle_between u v
    = 2 * arctan2 (length_of (Vec3.smul (length_of v) u - Vec3.smul (length_of u) v))
        (length_of (Vec3.smul (length_of v) u + Vec3.smul (length_of u) v)) := rfl

/-- skyfield's `angle_between` always lands in `[0, π]`. -/
theorem angle_between_mem (u v : Vec3) :
    0 ≤ angle_between u v ∧ angle_between u v ≤ Real.pi := by
  rw [angle_between_def]
  obtain ⟨b1, b2⟩ := arctan2_nonneg_bounds
    (length_of_nonneg (Vec3.smul (length_of v) u - Vec3.smul (length_of u) v))
    (length_of_nonneg (Vec3.smul (length_of v) u + Vec3.smul (length_of u) v))
  constructor <;> linarith

theorem dot_smul_sub_self (u v : Vec3) :
    Vec3.dot (Vec3.smul (length_of v) u - Vec3.smul (length_of u) v)
      (Vec3.smul (length_of v) u - Vec3.smul (length_of u) v)
    = 2 * (length_of u * length_of v) * (length_of u * length_of v - Vec3.dot u v) := by
  have h1 : length_of u * length_of u = Vec3.dot u u := length_of_mul_self u
  have h2 : length_of v * length_of v = Vec3.dot v v := length_of_mul_self v
  simp only [Vec3.dot, Vec3.sub_x, Vec3.sub_y, Vec3.sub_z, Vec3.smul_x, Vec3.smul_y,
    Vec3.smul_z] at h1 h2 ⊢
  linear_combination (-(length_of v * length_of v)) * h1 + (-(length_of u * length_of u)) * h2

theorem dot_smul_add_self (u v : Vec3) :
    Vec3.dot (Vec3.smul (length_of v) u + Vec3.smul (length_of u) v)
      (Vec3.smul (length_of v) u + Vec3.smul (length_of u) v)
    = 2 * (length_of u * length_of v) * (length_of u * length_of v + Vec3.dot u v) := by
  have h1 : length_of u * length_of u = Vec3.dot u u := length_of_mul_self u
  have h2 : length_of v * length_of v = Vec3.dot v v := length_of_mul_self v
  simp only [Vec3.dot, Vec3.add_x, Vec3.add_y, Vec3.add_z, Vec3.smul_x, Vec3.smul_y,
    Vec3.smul_z] at h1 h2 ⊢
  linear_combination (-(length_of v * length_of v)) * h1 + (-(length_of u * length_of u)) * h2

/-- For nonzero vectors, skyfield's stable `angle_between` formula equals the
spec's arccosine-of-normalized-dot-product angle. -/
theorem angle_between_eq_arccos (u v : Vec3) (hu : u ≠ 0) (hv : v ≠ 0) :
    angle_between u v = specAngleBetween u v := by
  have hlu : 0 < length_of u := length_of_pos hu
  have hlv : 0 < length_of v := length_of_pos hv
  have hs : 0 < length_of u * length_of v := mul_pos hlu hlv
  have hds : Vec3.dot u v * Vec3.dot u v
      ≤ (length_of u * length_of v) * (length_of u * length_of v) := by
    calc Vec3.dot u v * Vec3.dot u v ≤ Vec3.dot u u * Vec3.dot v v := Vec3.dot_sq_le u v
    _ = (length_of u * length_of v) * (length_of u * length_of v) := by
        rw [← length_of_mul_self u, ← length_of_mul_self v]; ring
  have hd_le : Vec3.dot u v ≤ length_of u * length_of v := by nlinarith [hds, hs]
  have hd_ge : -(length_of u * length_of v) ≤ Vec3.dot u v := by nlinarith [hds, hs]
  rw [angle_between_def]
  unfold specAngleBetween
  rw [length_of_eq_sqrt_dot (Vec3.smul (length_of v) u - Vec3.smul (length_of u) v),
    length_of_eq_sqrt_dot (Vec3.smul (length_of v) u + Vec3.smul (length_of u) v),
    dot_smul_sub_self, dot_smul_add_self]
  rcases lt_or_eq_of_le hd_ge with hB | hA
  · -- generic case: length_of u * length_of v + dot u v > 0
    have hpos : (0 : ℝ) < 2 * (length_of u * length_of v)
        * (length_of u * length_of v + Vec3.dot u v) := by nlinarith
    have hx : 0 < Real.sqrt (2 * (length_of u * length_of v)
        * (length_of u * length_of v + Vec3.dot u v)) := Real.sqrt_pos.2 hpos
    unfold arctan2
    rw [if_pos hx]
    set c : ℝ := Vec3.dot u v / (length_of u * length_of v) with hc_def
    have hc1 : -1 ≤ c := by
      rw [hc_def, le_div_iff₀ hs]; linarith
    have hc1' : -1 < c := by
      rw [hc_def, lt_div_iff₀ hs]; linarith
    have hc2 : c ≤ 1 := by
      rw [hc_def, div_le_one hs]; linarith
    have hcos : Real.cos (Real.arccos c) = c := Real.cos_arccos hc1 hc2
    have hth0 : 0 ≤ Real.arccos c := Real.arccos_nonneg c
    have hthpi : Real.arccos c < Real.pi := by
      rcases lt_or_eq_of_le (Real.arccos_le_pi c) with h | h
      · exact h
      · exact absurd (Real.arccos_eq_pi.1 h) (by linarith)
    have hcoshalf : 0 < Real.cos (Real.arccos c / 2) :=
      Real.cos_pos_of_mem_Ioo ⟨by linarith [Real.pi_pos], by linarith⟩
    have hsinhalf : 0 ≤ Real.sin (Real.arccos c / 2) :=
      Real.sin_nonneg_of_nonneg_of_le_pi (by linarith) (by linarith [Real.pi_pos])
    have htan0 : 0 ≤ Real.tan (Real.arccos c / 2) := by
      rw [Real.tan_eq_sin_div_cos]
      exact div_nonneg hsinhalf hcoshalf.le
    have hcossq : Real.cos (Real.arccos c / 2) ^ 2 = (1 + c) / 2 := by
      have h2x : 2 * (Real.arccos c / 2) = Real.arccos c := by ring
      rw [Real.cos_sq, h2x, hcos]; ring
    have hsinsq : Real.sin (Real.arccos c / 2) ^ 2 = (1 - c) / 2 := by
      rw [Real.sin_sq, hcossq]; ring
    have htansq : Real.tan (Real.arccos c / 2) ^ 2 = (1 - c) / (1 + c) := by
      rw [Real.tan_eq_sin_div_cos, div_pow, hsinsq, hcossq, div_div_div_comm]
      norm_num
    have hc1pos : 0 < 1 + c := by linarith
    have hsd : length_of u * length_of v + Vec3.dot u v ≠ 0 := by
      intro h; rw [h] at hpos; simp at hpos
    have hratio : Real.sqrt (2 * (length_of u * length_of v)
          * (length_of u * length_of v - Vec3.dot u v))
        / Real.sqrt (2 * (length_of u * length_of v)
          * (length_of u * length_of v + Vec3.dot u v))
        = Real.tan (Real.arccos c / 2) := by
      apply eq_of_sq_eq_sq_of_nonneg (div_nonneg (Real.sqrt_nonneg _) (Real.sqrt_nonneg _)) htan0
      rw [div_pow, Real.sq_sqrt (by nlinarith), Real.sq_sqrt hpos.le, htansq]
      rw [hc_def]
      field_simp
      ring
    rw [hratio, Real.arctan_tan (by linarith [Real.pi_pos]) (by linarith)]
    ring
  · -- degenerate case: dot u v = -(length_of u * length_of v), the angle is π
    have hzero : 2 * (length_of u * length_of v)
        * (length_of u * length_of v + Vec3.dot u v) = 0 := by
      rw [← hA]; ring
    have hy : (0 : ℝ) < Real.sqrt (2 * (length_of u * length_of v)
        * (length_of u * length_of v - Vec3.dot u v)) := by
      apply Real.sqrt_pos.2
      nlinarith
    rw [hzero, Real.sqrt_zero]
    unfold arctan2
    rw [if_neg (lt_irrefl 0), if_neg (lt_irrefl 0), if_pos hy]
    have : Vec3.dot u v / (length_of u * length_of v) = -1 := by
      rw [← hA]
      field_simp
    rw [this, Real.arccos_neg_one]
    ring

theorem ReflectionParameters.make_r (a : Astrometric) :
    (ReflectionParameters.make a).r = length_of (a.centerBarycentricAu + a.positionAu) := rfl

theorem ReflectionParameters.make_delta (a : Astrometric) :
    (ReflectionParameters.make a).delta = length_of a.positionAu := rfl

theorem ReflectionParameters.make_alpha (a : Astrometric) :
    (ReflectionParameters.make a).alpha
      = angle_between (-(a.centerBarycentricAu + a.positionAu)) (-a.positionAu) * RAD2DEG := rfl

theorem ReflectionParameters.make_position (a : Astrometric) :
    (ReflectionParameters.make a).position = a := rfl

theorem ReflectionParameters.r_make_nonneg (a : Astrometric) :
    0 ≤ (ReflectionParameters.make a).r := length_of_nonneg _

theorem ReflectionParameters.delta_make_nonneg (a : Astrometric) :
    0 ≤ (ReflectionParameters.make a).delta := length_of_nonneg _

/-- The derived phase angle always lies in `[0, 180]` degrees. -/
theorem ReflectionParameters.alpha_make_mem (a : Astrometric) :
    0 ≤ (ReflectionParameters.make a).alpha ∧ (ReflectionParameters.make a).alpha ≤ 180 := by
  rw [ReflectionParameters.make_alpha]
  obtain ⟨h0, h1⟩ := angle_between_mem (-(a.centerBarycentricAu + a.positionAu)) (-a.positionAu)
  have hpi : 0 < Real.pi := Real.pi_pos
  have hfac : 0 < RAD2DEG := by unfold RAD2DEG; positivity
  constructor
  · exact mul_nonneg h0 hfac.le
  · calc angle_between (-(a.centerBarycentricAu + a.positionAu)) (-a.positionAu) * RAD2DEG
        ≤ Real.pi * RAD2DEG := mul_le_mul_of_nonneg_right h1 hfac.le
    _ = 180 := by unfold RAD2DEG; field_simp

theorem sqrt_four : Real.sqrt 4 = 2 := by
  rw [show (4 : ℝ) = 2 ^ 2 by norm_num, Real.sqrt_sq (by norm_num : (0 : ℝ) ≤ 2)]

/-- Phase angle of an exactly "full" geometry: the observer on the Sun-body
axis, on the sunward side, twice as far from the body as the Sun is not. -/
theorem alpha_parallel :
    (ReflectionParameters.make ⟨⟨1, 0, 0⟩, ⟨1, 0, 0⟩, none⟩).alpha = 0 := by
  rw [ReflectionParameters.make_alpha]
  have hu : (-((⟨1, 0, 0⟩ : Vec3) + ⟨1, 0, 0⟩)) ≠ 0 := by
    intro h
    have hx := congrArg Vec3.x h
    simp only [Vec3.neg_x, Vec3.add_x, Vec3.zero_x] at hx
    norm_num at hx
  have hv : (-(⟨1, 0, 0⟩ : Vec3)) ≠ 0 := by
    intro h
    have hx := congrArg Vec3.x h
    simp only [Vec3.neg_x, Vec3.zero_x] at hx
    norm_num at hx
  rw [angle_between_eq_arccos _ _ hu hv]
  unfold specAngleBetween
  have hdot : Vec3.dot (-((⟨1, 0, 0⟩ : Vec3) + ⟨1, 0, 0⟩)) (-(⟨1, 0, 0⟩ : Vec3)) = 2 := by
    simp [Vec3.dot]
    norm_num
  have hl1 : length_of (-((⟨1, 0, 0⟩ : Vec3) + ⟨1, 0, 0⟩)) = 2 := by
    unfold length_of
    simp only [Vec3.neg_x, Vec3.neg_y, Vec3.neg_z, Vec3.add_x, Vec3.add_y, Vec3.add_z]
    rw [show (-((1 : ℝ) + 1)) * (-(1 + 1)) + (-(0 + 0)) * (-(0 + 0)) + (-(0 + 0)) * (-(0 + 0))
      = 4 by norm_num]
    exact sqrt_four
  have hl2 : length_of (-(⟨1, 0, 0⟩ : Vec3)) = 1 := by
    unfold length_of
    simp only [Vec3.neg_x, Vec3.neg_y, Vec3.neg_z]
    rw [show (-(1 : ℝ)) * (-1) + (-0) * (-0) + (-0) * (-0) = 1 by norm_num]
    exact Real.sqrt_one
  rw [hdot, hl1, hl2]
  norm_num [Real.arccos_one]

/-- Phase angle of an exactly "quarter" geometry: the Sun-body and
observer-body directions are orthogonal. -/
theorem alpha_quarter (ty : Option Int) :
    (ReflectionParameters.make ⟨⟨1, -1, 0⟩, ⟨0, 1, 0⟩, ty⟩).alpha = 90 := by
  rw [ReflectionParameters.make_alpha]
  have hu : (-((⟨1, -1, 0⟩ : Vec3) + ⟨0, 1, 0⟩)) ≠ 0 := by
    intro h
    have hx := congrArg Vec3.x h
    simp only [Vec3.neg_x, Vec3.add_x, Vec3.zero_x] at hx
    norm_num at hx
  have hv : (-(⟨0, 1, 0⟩ : Vec3)) ≠ 0 := by
    intro h
    have hy := congrArg Vec3.y h
    simp only [Vec3.neg_y, Vec3.zero_y] at hy
    norm_num at hy
  rw [angle_between_eq_arccos _ _ hu hv]
  unfold specAngleBetween
  have hdot : Vec3.dot (-((⟨1, -1, 0⟩ : Vec3) + ⟨0, 1, 0⟩)) (-(⟨0, 1, 0⟩ : Vec3)) = 0 := by
    simp [Vec3.dot]
  rw [hdot, zero_div, Real.arccos_zero]
  unfold RAD2DEG
  field_simp
  ring

theorem _polynomial_three (x c0 c1 c2 : ℝ) :
    _polynomial x [c0, c1, c2] = c0 + c1 * x + c2 * x ^ 2 := by
  simp only [_polynomial, polyAux]; ring

theorem _polynomial_five (x c0 c1 c2 c3 c4 : ℝ) :
    _polynomial x [c0, c1, c2, c3, c4]
      = c0 + c1 * x + c2 * x ^ 2 + c3 * x ^ 3 + c4 * x ^ 4 := by
  simp only [_polynomial, polyAux]; ring

theorem _polynomial_six (x c0 c1 c2 c3 c4 c5 : ℝ) :
    _polynomial x [c0, c1, c2, c3, c4, c5]
      = c0 + c1 * x + c2 * x ^ 2 + c3 * x ^ 3 + c4 * x ^ 4 + c5 * x ^ 5 := by
  simp only [_polynomial, polyAux]; ring

theorem _polynomial_seven (x c0 c1 c2 c3 c4 c5 c6 : ℝ) :
    _polynomial x [c0, c1, c2, c3, c4, c5, c6]
      = c0 + c1 * x + c2 * x ^ 2 + c3 * x ^ 3 + c4 * x ^ 4 + c5 * x ^ 5 + c6 * x ^ 6 := by
  simp only [_polynomial, polyAux]; ring

/-- The degree-5 polynomial in Jupiter's high-angle branch is strictly
positive on the whole normalized-angle interval `[0, 1]`, so its `log10`
never raises. -/
theorem jupiterPoly_pos {x : ℝ} (h0 : 0 ≤ x) (h1 : x ≤ 1) :
    0 < _polynomial x [1, -1.507, -0.363, -0.062, 2.809, -1.876] := by
  rw [_polynomial_six]
  have hT : 0 < 0.999 - 0.508 * x - 0.871 * x ^ 2 - 0.933 * x ^ 3 + 1.876 * x ^ 4 := by
    nlinarith [sq_nonneg (x ^ 2 - 0.2487 * x - 0.2631), mul_nonneg h0 (sub_nonneg.2 h1),
      sq_nonneg x, sq_nonneg (1 - x)]
  nlinarith [mul_nonneg (sub_nonneg.2 h1) hT.le]

theorem mercury_q_ne_raises (p : ReflectionParameters) : Mercury.q p ≠ .raises := by
  unfold Mercury.q
  intro hc
  exact PyResult.noConfusion hc

theorem venus_q_ne_raises (p : ReflectionParameters) : Venus.q p ≠ .raises := by
  unfold Venus.q
  split_ifs <;> intro hc <;> exact PyResult.noConfusion hc

theorem earth_q_ne_raises (p : ReflectionParameters) : Earth.q p ≠ .raises := by
  unfold Earth.q
  intro hc
  exact PyResult.noConfusion hc

theorem mars_q_ne_raises (p : ReflectionParameters) : Mars.q p ≠ .raises := by
  unfold Mars.q
  split_ifs <;> intro hc <;> exact PyResult.noConfusion hc

theorem jupiter_q_ne_raises (p : ReflectionParameters) (h0 : 0 ≤ p.alpha)
    (h1 : p.alpha ≤ 180) : Jupiter.q p ≠ .raises := by
  unfold Jupiter.q
  split_ifs with h
  · intro hc; exact PyResult.noConfusion hc
  · have hpos : 0 < _polynomial (p.alpha / 180) [1, -1.507, -0.363, -0.062, 2.809, -1.876] :=
      jupiterPoly_pos (div_nonneg h0 (by norm_num)) ((div_le_one (by norm_num)).2 h1)
    simp only [log10Checked, if_pos hpos]
    intro hc
    exact PyResult.noConfusion hc

theorem saturn_q_ne_raises (p : ReflectionParameters) : Saturn.q p ≠ .raises := by
  unfold Saturn.q
  split_ifs <;> intro hc <;> exact PyResult.noConfusion hc

theorem uranus_q_ne_raises (p : ReflectionParameters) : Uranus.q p ≠ .raises := by
  unfold Uranus.q
  split_ifs <;> intro hc <;> exact PyResult.noConfusion hc

theorem neptune_q_ne_raises (p : ReflectionParameters) : Neptune.q p ≠ .raises := by
  unfold Neptune.q
  split_ifs with h
  · cases hty : p.position.tYear with
    | some y =>
      dsimp only
      split_ifs <;> intro hc <;> exact PyResult.noConfusion hc
    | none =>
      dsimp only
      intro hc; exact PyResult.noConfusion hc
  · intro hc; exact PyResult.noConfusion hc

/-- Half of a phase angle in `[0, 180]` degrees lands in the first quadrant,
so its tangent is nonnegative. -/
theorem halfTan_nonneg {alpha : ℝ} (h0 : 0 ≤ alpha) (h1 : alpha ≤ 180) :
    0 ≤ Real.tan (0.5 * alpha * DEG2RAD) := by
  have hpi := Real.pi_pos
  have harg0 : 0 ≤ 0.5 * alpha * DEG2RAD := by unfold DEG2RAD; positivity
  have harg1 : 0.5 * alpha * DEG2RAD ≤ Real.pi / 2 := by
    unfold DEG2RAD
    nlinarith [mul_le_mul_of_nonneg_right h1 hpi.le]
  rw [Real.tan_eq_sin_div_cos]
  exact div_nonneg
    (Real.sin_nonneg_of_nonneg_of_le_pi harg0 (by linarith))
    (Real.cos_nonneg_of_mem_Icc (Set.mem_Icc.2 ⟨by linarith, harg1⟩))

/-- With a slope parameter `g ∈ [0, 1]`, the argument of the logarithm in the
`(H, G)` phase law is a convex combination of two positive exponentials,
hence positive. -/
theorem hg_log_arg_pos (g e1 e2 : ℝ) (hg0 : 0 ≤ g) (hg1 : g ≤ 1) :
    0 < (1 - g) * Real.exp e1 + g * Real.exp e2 := by
  rcases eq_or_lt_of_le hg1 with rfl | hlt
  · simp only [sub_self, zero_mul, one_mul, zero_add]
    exact Real.exp_pos e2
  · nlinarith [mul_pos (by linarith : (0 : ℝ) < 1 - g) (Real.exp_pos e1),
      mul_nonneg hg0 (Real.exp_pos e2).le]

theorem hg_q_ne_raises (h g : ℝ) (p : ReflectionParameters)
    (hg0 : 0 ≤ g) (hg1 : g ≤ 1) (h0 : 0 ≤ p.alpha) (h1 : p.alpha ≤ 180) :
    HGReflectingBody.q h g p ≠ .raises := by
  have ht := halfTan_nonneg h0 h1
  have harg := hg_log_arg_pos g
    (-3.33 * Real.tan (0.5 * p.alpha * DEG2RAD) ^ (0.63 : ℝ))
    (-1.87 * Real.tan (0.5 * p.alpha * DEG2RAD) ^ (1.22 : ℝ)) hg0 hg1
  simp only [HGReflectingBody.q, powChecked, logChecked, if_pos ht, if_pos harg]
  intro hc
  exact PyResult.noConfusion hc

theorem reflectingMagnitude_ne_raises (q : ReflectionParameters → PyResult (Option ℝ))
    (a : Astrometric) (hq : q (ReflectionParameters.make a) ≠ .raises)
    (hrd : 0 < (ReflectionParameters.make a).r * (ReflectionParameters.make a).delta) :
    reflectingMagnitude q a ≠ .raises := by
  simp only [reflectingMagnitude]
  cases hqv : q (ReflectionParameters.make a) with
  | raises => exact absurd hqv hq
  | ok v =>
    cases v with
    | none =>
      dsimp only
      intro hc; exact PyResult.noConfusion hc
    | some qq =>
      dsimp only
      simp only [ReflectionParameters.distanceFactorChecked, log10Checked, if_pos hrd]
      intro hc; exact PyResult.noConfusion hc

theorem reflectingMagnitude_congr (q : ReflectionParameters → PyResult (Option ℝ))
    {a1 a2 : Astrometric}
    (hq : q (ReflectionParameters.make a1) = q (ReflectionParameters.make a2))
    (hr : (ReflectionParameters.make a1).r = (ReflectionParameters.make a2).r)
    (hd : (ReflectionParameters.make a1).delta = (ReflectionParameters.make a2).delta) :
    reflectingMagnitude q a1 = reflectingMagnitude q a2 := by
  simp only [reflectingMagnitude, ReflectionParameters.distanceFactorChecked]
  rw [hq, hr, hd]

theorem mercury_q_congr {p1 p2 : ReflectionParameters} (h : p1.alpha = p2.alpha) :
    Mercury.q p1 = Mercury.q p2 := by
  unfold Mercury.q; rw [h]

theorem venus_q_congr {p1 p2 : ReflectionParameters} (h : p1.alpha = p2.alpha) :
    Venus.q p1 = Venus.q p2 := by
  unfold Venus.q; rw [h]

theorem earth_q_congr {p1 p2 : ReflectionParameters} (h : p1.alpha = p2.alpha) :
    Earth.q p1 = Earth.q p2 := by
  unfold Earth.q; rw [h]

theorem mars_q_congr {p1 p2 : ReflectionParameters} (h : p1.alpha = p2.alpha) :
    Mars.q p1 = Mars.q p2 := by
  unfold Mars.q; rw [h]

theorem jupiter_q_congr {p1 p2 : ReflectionParameters} (h : p1.alpha = p2.alpha) :
    Jupiter.q p1 = Jupiter.q p2 := by
  unfold Jupiter.q; rw [h]

theorem saturn_q_congr {p1 p2 : ReflectionParameters} (h : p1.alpha = p2.alpha) :
    Saturn.q p1 = Saturn.q p2 := by
  unfold Saturn.q; rw [h]

theorem uranus_q_congr {p1 p2 : ReflectionParameters} (h : p1.alpha = p2.alpha) :
    Uranus.q p1 = Uranus.q p2 := by
  unfold Uranus.q; rw [h]

theorem neptune_q_congr {p1 p2 : ReflectionParameters} (h : p1.alpha = p2.alpha)
    (ht : p1.position.tYear = p2.position.tYear) : Neptune.q p1 = Neptune.q p2 := by
  unfold Neptune.q; rw [h, ht]

theorem hg_q_congr (hh gg : ℝ) {p1 p2 : ReflectionParameters}
    (h : p1.alpha = p2.alpha) :
    HGReflectingBody.q hh gg p1 = HGReflectingBody.q hh gg p2 := by
  unfold HGReflectingBody.q; rw [h]

theorem magnitude_mercury (a : Astrometric) :
    IlluminatedBody.magnitude .mercury a = reflectingMagnitude Mercury.q a := rfl

theorem magnitude_venus (a : Astrometric) :
    IlluminatedBody.magnitude .venus a = reflectingMagnitude Venus.q a := rfl

theorem magnitude_earth (a : Astrometric) :
    IlluminatedBody.magnitude .earth a = reflectingMagnitude Earth.q a := rfl

theorem magnitude_mars (a : Astrometric) :
    IlluminatedBody.magnitude .mars a = reflectingMagnitude Mars.q a := rfl

theorem magnitude_jupiter (a : Astrometric) :
    IlluminatedBody.magnitude .jupiter a = reflectingMagnitude Jupiter.q a := rfl

theorem magnitude_saturn (a : Astrometric) :
    IlluminatedBody.magnitude .saturn a = reflectingMagnitude Saturn.q a := rfl

theorem magnitude_uranus (a : Astrometric) :
    IlluminatedBody.magnitude .uranus a = reflectingMagnitude Uranus.q a := rfl

theorem magnitude_neptune (a : Astrometric) :
    IlluminatedBody.magnitude .neptune a = reflectingMagnitude Neptune.q a := rfl

theorem magnitude_hg (h g : ℝ) (a : Astrometric) :
    IlluminatedBody.magnitude (.hgReflecting h g) a
      = reflectingMagnitude (HGReflectingBody.q h g) a := rfl

theorem magnitude_distant (m : ℝ) (a : Astrometric) :
    IlluminatedBody.magnitude (.distantLuminous m) a = .ok (some m) := rfl

theorem magnitude_proximate_congr (m : ℝ) {a1 a2 : Astrometric}
    (hd : (ReflectionParameters.make a1).delta = (ReflectionParameters.make a2).delta) :
    IlluminatedBody.magnitude (.proximateLuminous m) a1
      = IlluminatedBody.magnitude (.proximateLuminous m) a2 := by
  have h : a1.distanceAu = a2.distanceAu := hd
  simp only [IlluminatedBody.magnitude]
  rw [h]

theorem magnitude_proximate_ne_raises (m : ℝ) (a : Astrometric)
    (hd : 0 < (ReflectionParameters.make a).delta) :
    IlluminatedBody.magnitude (.proximateLuminous m) a ≠ .raises := by
  have h : 0 < a.distanceAu := hd
  simp only [IlluminatedBody.magnitude, log10Checked, if_pos h]
  intro hc; exact PyResult.noConfusion hc

theorem magnitude_solar_congr (g k : ℝ) {a1 a2 : Astrometric}
    (hr : (ReflectionParameters.make a1).r = (ReflectionParameters.make a2).r)
    (hd : (ReflectionParameters.make a1).delta = (ReflectionParameters.make a2).delta) :
    IlluminatedBody.magnitude (.solarActivated g k) a1
      = IlluminatedBody.magnitude (.solarActivated g k) a2 := by
  simp only [IlluminatedBody.magnitude]
  rw [hr, hd]

theorem magnitude_solar_ne_raises (g k : ℝ) (a : Astrometric)
    (hr : 0 < (ReflectionParameters.make a).r)
    (hd : 0 < (ReflectionParameters.make a).delta) :
    IlluminatedBody.magnitude (.solarActivated g k) a ≠ .raises := by
  simp only [IlluminatedBody.magnitude, log10Checked, if_pos hd, if_pos hr]
  intro hc; exact PyResult.noConfusion hc

theorem r_parallel : (ReflectionParameters.make ⟨⟨1, 0, 0⟩, ⟨1, 0, 0⟩, none⟩).r = 2 := by
  rw [ReflectionParameters.make_r]
  show Real.sqrt ((1 + 1) * (1 + 1) + (0 + 0) * (0 + 0) + (0 + 0) * (0 + 0)) = 2
  rw [show ((1 : ℝ) + 1) * (1 + 1) + (0 + 0) * (0 + 0) + (0 + 0) * (0 + 0) = 4 by norm_num]
  exact sqrt_four

theorem delta_parallel :
    (ReflectionParameters.make ⟨⟨1, 0, 0⟩, ⟨1, 0, 0⟩, none⟩).delta = 1 := by
  rw [ReflectionParameters.make_delta]
  show Real.sqrt (1 * 1 + 0 * 0 + 0 * 0) = 1
  rw [show (1 : ℝ) * 1 + 0 * 0 + 0 * 0 = 1 by norm_num]
  exact Real.sqrt_one

/-- C9: every `ReflectionParameters` value produced by
`ReflectionParameters.make` satisfies the data-model invariant `r ≥ 0`,
`delta ≥ 0` and `alpha ∈ [0, 180]` degrees.  The embedding proves this for
every input position, with no non-degeneracy assumption needed: the lengths
are square roots, and the two-argument arctangent of two nonnegative numbers
lies in `[0, π/2]`, so twice it, converted to degrees, lies in `[0, 180]`. -/
theorem claim_C9_invariants (a : Astrometric) :
    0 ≤ (ReflectionParameters.make a).r ∧ 0 ≤ (ReflectionParameters.make a).delta ∧
      0 ≤ (ReflectionParameters.make a).alpha ∧ (ReflectionParameters.make a).alpha ≤ 180 := by
  obtain ⟨h0, h1⟩ := ReflectionParameters.alpha_make_mem a
  exact ⟨ReflectionParameters.r_make_nonneg a, ReflectionParameters.delta_make_nonneg a, h0, h1⟩

/-- C1 counterexample: the claim prescribes
`sunToObserver = -(observer's barycentric position vector)`, so its `r` would
be `|(-barycentric) + observedRelative|`.  The code does not negate:
`sunToObserver = position.center_barycentric.position.au`.  With the observer
at barycentric `(1,0,0)` and the relative vector `(1,0,0)`, the code computes
`r = 2` while the claim's formula yields `0`. -/
theorem claim_C1_counterexample :
    (ReflectionParameters.make ⟨⟨1, 0, 0⟩, ⟨1, 0, 0⟩, none⟩).r = 2 ∧
    length_of (-(⟨1, 0, 0⟩ : Vec3) + ⟨1, 0, 0⟩) = 0 ∧ (2 : ℝ) ≠ (0 : ℝ) := by
  refine ⟨r_parallel, ?_, by norm_num⟩
  show Real.sqrt ((-1 + 1) * (-1 + 1) + (-0 + 0) * (-0 + 0) + (-0 + 0) * (-0 + 0)) = 0
  rw [show ((-1 : ℝ) + 1) * (-1 + 1) + (-0 + 0) * (-0 + 0) + (-0 + 0) * (-0 + 0) = 0 by norm_num]
  exact Real.sqrt_zero

/-- C1 (amended): with `sunToObserver = +(the observer's barycentric position
vector)` — no negation — `ReflectionParameters.make` computes exactly the
spec's geometry: `sunToBody = sunToObserver + observerToBody`,
`r = |sunToBody|`, `delta = |observerToBody|`, and `alpha` is the angle
between `-sunToBody` and `-observerToBody` (the arccosine of the normalized
dot product) converted to degrees; it is total, with no failure mode, for
every well-formed (nonzero) vector pair. -/
theorem claim_C1_geometry (a : Astrometric)
    (hsb : a.centerBarycentricAu + a.positionAu ≠ 0) (hob : a.positionAu ≠ 0) :
    (ReflectionParameters.make a).r = length_of (a.centerBarycentricAu + a.positionAu) ∧
    (ReflectionParameters.make a).delta = length_of a.positionAu ∧
    (ReflectionParameters.make a).alpha
      = specAngleBetween (-(a.centerBarycentricAu + a.positionAu)) (-a.positionAu) * RAD2DEG := by
  refine ⟨rfl, rfl, ?_⟩
  rw [ReflectionParameters.make_alpha,
    angle_between_eq_arccos _ _ (Vec3.neg_ne_zero hsb) (Vec3.neg_ne_zero hob)]

/-- Witness for C1 at the concrete position with barycentric observer
`(1,-1,0)` and relative vector `(0,1,0)`. -/
theorem claim_C1_witness :
    ((⟨1, -1, 0⟩ : Vec3) + ⟨0, 1, 0⟩ ≠ 0) ∧ ((⟨0, 1, 0⟩ : Vec3) ≠ 0) ∧
    ((ReflectionParameters.make ⟨⟨1, -1, 0⟩, ⟨0, 1, 0⟩, none⟩).r
        = length_of ((⟨1, -1, 0⟩ : Vec3) + ⟨0, 1, 0⟩) ∧
      (ReflectionParameters.make ⟨⟨1, -1, 0⟩, ⟨0, 1, 0⟩, none⟩).delta
        = length_of (⟨0, 1, 0⟩ : Vec3) ∧
      (ReflectionParameters.make ⟨⟨1, -1, 0⟩, ⟨0, 1, 0⟩, none⟩).alpha
        = specAngleBetween (-((⟨1, -1, 0⟩ : Vec3) + ⟨0, 1, 0⟩)) (-(⟨0, 1, 0⟩ : Vec3))
            * RAD2DEG) := by
  have h1 : (⟨1, -1, 0⟩ : Vec3) + ⟨0, 1, 0⟩ ≠ 0 := by
    intro h
    have hx := congrArg Vec3.x h
    simp only [Vec3.add_x, Vec3.zero_x] at hx
    norm_num at hx
  have h2 : (⟨0, 1, 0⟩ : Vec3) ≠ 0 := by
    intro h
    have hy := congrArg Vec3.y h
    simp only [Vec3.zero_y] at hy
    norm_num at hy
  exact ⟨h1, h2, claim_C1_geometry ⟨⟨1, -1, 0⟩, ⟨0, 1, 0⟩, none⟩ h1 h2⟩

/-- C2 counterexample: the claim asserts that Mars's low-branch and
high-branch polynomials agree at `alpha = 50` to within floating-point
tolerance.  In exact arithmetic the two branch values are `-0.793` and
`-0.79225`: they differ by exactly `7.5e-4`, far beyond the `~1e-16`
rounding error of these double-precision computations — here shown to exceed
even a generous `1e-6` tolerance. -/
theorem claim_C2_counterexample :
    1 / 1000000 < |_polynomial 50 Mars.lowCoeffs - _polynomial 50 Mars.highCoeffs| := by
  have hlow : _polynomial (50 : ℝ) Mars.lowCoeffs = -0.793 := by
    rw [Mars.lowCoeffs, _polynomial_three]
    norm_num
  have hhigh : _polynomial (50 : ℝ) Mars.highCoeffs = -0.79225 := by
    rw [Mars.highCoeffs, _polynomial_three]
    norm_num
  rw [hlow, hhigh, show (-0.793 : ℝ) - -0.79225 = -(0.00075) by norm_num, abs_neg,
    abs_of_pos (by norm_num : (0 : ℝ) < 0.00075)]
  norm_num

/-- C2 (amended): at the branch boundary `alpha = 50`, Mars's low-branch and
high-branch polynomials differ by exactly `3/4000 = 7.5e-4` (the `+1.234`
level shift makes the branches continuous only to within `1e-3`, not to
floating-point rounding tolerance); and for every phase angle above `120`
degrees — in particular `121` — `Mars.q` returns the undefined result. -/
theorem claim_C2_mars (params : ReflectionParameters) (hgt : 120 < params.alpha) :
    _polynomial 50 Mars.lowCoeffs - _polynomial 50 Mars.highCoeffs = -(3 / 4000) ∧
    Mars.q params = .ok none := by
  constructor
  · have hlow : _polynomial (50 : ℝ) Mars.lowCoeffs = -0.793 := by
      rw [Mars.lowCoeffs, _polynomial_three]
      norm_num
    have hhigh : _polynomial (50 : ℝ) Mars.highCoeffs = -0.79225 := by
      rw [Mars.highCoeffs, _polynomial_three]
      norm_num
    rw [hlow, hhigh]
    norm_num
  · unfold Mars.q
    rw [if_neg (by linarith), if_neg (by linarith)]

/-- Witness for C2 at the concrete phase angle `alpha = 121`. -/
theorem claim_C2_witness :
    (120 : ℝ) < 121 ∧
    (_polynomial 50 Mars.lowCoeffs - _polynomial 50 Mars.highCoeffs = -(3 / 4000) ∧
      Mars.q ⟨⟨⟨0, 0, 0⟩, ⟨0, 0, 0⟩, none⟩, 1, 1, 121⟩ = .ok none) :=
  ⟨by norm_num, claim_C2_mars ⟨⟨⟨0, 0, 0⟩, ⟨0, 0, 0⟩, none⟩, 1, 1, 121⟩ (by norm_num)⟩

/-- C3 counterexample: the claim asserts that each of Mercury, Venus, Earth
AND Mars is reachable under both its "planet" and its "barycenter" ephemeris
identifier.  Mercury (1/199), Venus (2/299) and Earth (3/399) are, but the
table maps Mars only under its barycenter identifier 4: looking up Mars's
planet identifier 499 finds nothing. -/
theorem claim_C3_counterexample :
    (STANDARD_BODIES.lookup 199).isSome = true ∧ (STANDARD_BODIES.lookup 299).isSome = true ∧
    (STANDARD_BODIES.lookup 399).isSome = true ∧ STANDARD_BODIES.lookup 499 = none ∧
    STANDARD_BODIES.lookup 4 = some .mars :=
  ⟨rfl, rfl, rfl, rfl, rfl⟩

/-- C3 (amended): the fixed table covers exactly ten Solar System major
bodies through thirteen keys; Mercury, Venus and Earth are each reachable
under both their "planet" and "barycenter" identifiers, while Mars is bound
only under its barycenter identifier 4 (the planet identifier 499 is
absent); the Sun is bound to `ProximateLuminousBody(4.83)` and Pluto to
`HGReflectingBody(-0.45, 0.15)`. -/
theorem claim_C3_table :
    STANDARD_BODIES.map Prod.fst = [1, 199, 2, 299, 3, 399, 4, 5, 6, 7, 8, 9, 10] ∧
    STANDARD_BODIES.lookup 1 = some .mercury ∧ STANDARD_BODIES.lookup 199 = some .mercury ∧
    STANDARD_BODIES.lookup 2 = some .venus ∧ STANDARD_BODIES.lookup 299 = some .venus ∧
    STANDARD_BODIES.lookup 3 = some .earth ∧ STANDARD_BODIES.lookup 399 = some .earth ∧
    STANDARD_BODIES.lookup 4 = some .mars ∧ STANDARD_BODIES.lookup 499 = none ∧
    STANDARD_BODIES.lookup 5 = some .jupiter ∧ STANDARD_BODIES.lookup 6 = some .saturn ∧
    STANDARD_BODIES.lookup 7 = some .uranus ∧ STANDARD_BODIES.lookup 8 = some .neptune ∧
    STANDARD_BODIES.lookup 9 = some (.hgReflecting (-0.45) 0.15) ∧
    STANDARD_BODIES.lookup 10 = some (.proximateLuminous 4.83) :=
  ⟨rfl, rfl, rfl, rfl, rfl, rfl, rfl, rfl, rfl, rfl, rfl, rfl, rfl, rfl, rfl⟩

/-- C4: model selection is a first-match-wins cascade.  For every catalog row
exposing both the `(magnitude_H, magnitude_G)` pair and a scalar `magnitude`
field, bound to a body whose identity is not in the major-body table, `make`
binds `HGReflectingBody(H, G)` and never `DistantLuminousBody(magnitude)`. -/
theorem claim_C4_priority (vf : VectorFunction) (df : DataFrame) (h g m : ℝ)
    (hvf : STANDARD_BODIES.lookup vf.target = none)
    (hH : df.magnitude_H = some h) (hG : df.magnitude_G = some g)
    (hm : df.magnitude = some m) :
    IlluminatedBody.make (some vf) (some df) = some (.hgReflecting h g) ∧
    IlluminatedBody.make (some vf) (some df) ≠ some (.distantLuminous m) := by
  have hmk : IlluminatedBody.make (some vf) (some df) = some (.hgReflecting h g) := by
    unfold IlluminatedBody.make
    dsimp only
    rw [hvf]
    dsimp only
    unfold makeFromDataFrame
    dsimp only
    rw [hH, hG]
  refine ⟨hmk, ?_⟩
  rw [hmk]
  intro hc
  exact IlluminatedBody.noConfusion (Option.some.inj hc)

/-- Witness for C4: a row carrying `H = 5`, `G = 0.15`, `magnitude = 7`,
attached to target 499 (not in the major-body table), selects the `(H, G)`
model. -/
theorem claim_C4_witness :
    IlluminatedBody.make (some ⟨499⟩) (some ⟨some 5, some 0.15, some 1, some 2, some 7⟩)
      = some (.hgReflecting 5 0.15) ∧
    IlluminatedBody.make (some ⟨499⟩) (some ⟨some 5, some 0.15, some 1, some 2, some 7⟩)
      ≠ some (.distantLuminous 7) :=
  claim_C4_priority ⟨499⟩ ⟨some 5, some 0.15, some 1, some 2, some 7⟩ 5 0.15 7 rfl rfl rfl rfl

/-- C5: `Neptune.q` yields a defined value exactly when the phase angle is
below 133 degrees and the observation carries a timestamp with calendar year
at least 2000; otherwise it yields the undefined result (and it never
raises).  In particular, at `alpha = 50`, year 1999 is undefined and year
2000 is defined. -/
theorem claim_C5_neptune :
    (∀ params : ReflectionParameters,
        (∃ v, Neptune.q params = .ok (some v))
          ↔ (params.alpha < 133 ∧ ∃ y, params.position.tYear = some y ∧ 2000 ≤ y)) ∧
    (∀ params : ReflectionParameters,
        Neptune.q params = .ok none
          ↔ ¬(params.alpha < 133 ∧ ∃ y, params.position.tYear = some y ∧ 2000 ≤ y)) ∧
    Neptune.q ⟨⟨⟨0, 0, 0⟩, ⟨0, 0, 0⟩, some 1999⟩, 1, 1, 50⟩ = .ok none ∧
    (∃ v, Neptune.q ⟨⟨⟨0, 0, 0⟩, ⟨0, 0, 0⟩, some 2000⟩, 1, 1, 50⟩ = .ok (some v)) := by
  have key : ∀ params : ReflectionParameters,
      ((∃ v, Neptune.q params = .ok (some v))
        ↔ (params.alpha < 133 ∧ ∃ y, params.position.tYear = some y ∧ 2000 ≤ y))
      ∧ (Neptune.q params = .ok none
        ↔ ¬(params.alpha < 133 ∧ ∃ y, params.position.tYear = some y ∧ 2000 ≤ y)) := by
    intro params
    unfold Neptune.q
    split_ifs with h
    · cases hty : params.position.tYear with
      | some y =>
        dsimp only
        split_ifs with hy
        · constructor
          · constructor
            · intro _; exact ⟨h, y, rfl, hy⟩
            · intro _; exact ⟨_, rfl⟩
          · constructor
            · intro hc
              exact Option.noConfusion (PyResult.ok.inj hc)
            · intro hn; exact absurd ⟨h, y, rfl, hy⟩ hn
        · constructor
          · constructor
            · rintro ⟨v, hv⟩
              exact Option.noConfusion (PyResult.ok.inj hv)
            · rintro ⟨-, y', hty', hy'⟩
              injection hty' with he
              exact absurd (he ▸ hy') hy
          · constructor
            · rintro - ⟨-, y', hty', hy'⟩
              injection hty' with he
              exact hy (he ▸ hy')
            · intro _; rfl
      | none =>
        dsimp only
        constructor
        · constructor
          · rintro ⟨v, hv⟩
            exact Option.noConfusion (PyResult.ok.inj hv)
          · rintro ⟨-, y', hty', -⟩
            exact Option.noConfusion hty'
        · constructor
          · rintro - ⟨-, y', hty', -⟩
            exact Option.noConfusion hty'
          · intro _; rfl
    · constructor
      · constructor
        · rintro ⟨v, hv⟩
          exact Option.noConfusion (PyResult.ok.inj hv)
        · rintro ⟨ha, -⟩; exact absurd ha h
      · constructor
        · rintro - ⟨ha, -⟩; exact absurd ha h
        · intro _; rfl
  refine ⟨fun p => (key p).1, fun p => (key p).2, ?_, ?_⟩
  · refine (key _).2.2 ?_
    rintro ⟨-, y, hy, h2000⟩
    injection hy with he
    rw [← he] at h2000
    norm_num at h2000
  · refine (key _).1.2 ⟨by norm_num, 2000, rfl, le_refl 2000⟩

/-- C6 counterexample: the claim says every body bound to a fixed major-body
model has a magnitude that is a pure function of the derived
`(r, delta, alpha)` triple.  Neptune is such a body, but its model also reads
the observation's calendar year: two observations with identical vectors
(hence identical derived triples) and timestamps in 1999 versus 2000 produce
an undefined versus a defined magnitude. -/
theorem claim_C6_counterexample :
    (ReflectionParameters.make ⟨⟨1, -1, 0⟩, ⟨0, 1, 0⟩, some 1999⟩).r
        = (ReflectionParameters.make ⟨⟨1, -1, 0⟩, ⟨0, 1, 0⟩, some 2000⟩).r ∧
    (ReflectionParameters.make ⟨⟨1, -1, 0⟩, ⟨0, 1, 0⟩, some 1999⟩).delta
        = (ReflectionParameters.make ⟨⟨1, -1, 0⟩, ⟨0, 1, 0⟩, some 2000⟩).delta ∧
    (ReflectionParameters.make ⟨⟨1, -1, 0⟩, ⟨0, 1, 0⟩, some 1999⟩).alpha
        = (ReflectionParameters.make ⟨⟨1, -1, 0⟩, ⟨0, 1, 0⟩, some 2000⟩).alpha ∧
    IlluminatedBody.magnitude .neptune ⟨⟨1, -1, 0⟩, ⟨0, 1, 0⟩, some 1999⟩ = .ok none ∧
    IlluminatedBody.magnitude .neptune ⟨⟨1, -1, 0⟩, ⟨0, 1, 0⟩, some 1999⟩
      ≠ IlluminatedBody.magnitude .neptune ⟨⟨1, -1, 0⟩, ⟨0, 1, 0⟩, some 2000⟩ := by
  have hq1 : Neptune.q (ReflectionParameters.make ⟨⟨1, -1, 0⟩, ⟨0, 1, 0⟩, some 1999⟩)
      = .ok none := by
    unfold Neptune.q
    rw [if_pos (by rw [alpha_quarter]; norm_num :
      (ReflectionParameters.make ⟨⟨1, -1, 0⟩, ⟨0, 1, 0⟩, some 1999⟩).alpha < 133)]
    rw [ReflectionParameters.make_position]
    dsimp only
    rw [if_neg (by norm_num : ¬(2000 : ℤ) ≤ 1999)]
  have h1 : IlluminatedBody.magnitude .neptune ⟨⟨1, -1, 0⟩, ⟨0, 1, 0⟩, some 1999⟩
      = .ok none := by
    rw [magnitude_neptune]
    simp only [reflectingMagnitude, hq1]
  have hq2 : Neptune.q (ReflectionParameters.make ⟨⟨1, -1, 0⟩, ⟨0, 1, 0⟩, some 2000⟩)
      = .ok (some (_polynomial
          (ReflectionParameters.make ⟨⟨1, -1, 0⟩, ⟨0, 1, 0⟩, some 2000⟩).alpha
          [-7.00, 7.944e-3, 9.617e-5])) := by
    unfold Neptune.q
    rw [if_pos (by rw [alpha_quarter]; norm_num :
      (ReflectionParameters.make ⟨⟨1, -1, 0⟩, ⟨0, 1, 0⟩, some 2000⟩).alpha < 133)]
    rw [ReflectionParameters.make_position]
    dsimp only
    rw [if_pos (by norm_num : (2000 : ℤ) ≤ 2000)]
  have hsum : (⟨1, -1, 0⟩ : Vec3) + ⟨0, 1, 0⟩ ≠ 0 := by
    intro h
    have hx := congrArg Vec3.x h
    simp only [Vec3.add_x, Vec3.zero_x] at hx
    norm_num at hx
  have hposv : (⟨0, 1, 0⟩ : Vec3) ≠ 0 := by
    intro h
    have hy := congrArg Vec3.y h
    simp only [Vec3.zero_y] at hy
    norm_num at hy
  have hrd : 0 < (ReflectionParameters.make ⟨⟨1, -1, 0⟩, ⟨0, 1, 0⟩, some 2000⟩).r
      * (ReflectionParameters.make ⟨⟨1, -1, 0⟩, ⟨0, 1, 0⟩, some 2000⟩).delta :=
    mul_pos (length_of_pos hsum) (length_of_pos hposv)
  have h2 : IlluminatedBody.magnitude .neptune ⟨⟨1, -1, 0⟩, ⟨0, 1, 0⟩, some 2000⟩
      = .ok (some (_polynomial
          (ReflectionParameters.make ⟨⟨1, -1, 0⟩, ⟨0, 1, 0⟩, some 2000⟩).alpha
          [-7.00, 7.944e-3, 9.617e-5]
        + 5 * Real.logb 10
            ((ReflectionParameters.make ⟨⟨1, -1, 0⟩, ⟨0, 1, 0⟩, some 2000⟩).r
              * (ReflectionParameters.make ⟨⟨1, -1, 0⟩, ⟨0, 1, 0⟩, some 2000⟩).delta))) := by
    rw [magnitude_neptune]
    simp only [reflectingMagnitude, hq2, ReflectionParameters.distanceFactorChecked,
      log10Checked, if_pos hrd]
  refine ⟨rfl, rfl, rfl, h1, ?_⟩
  rw [h1, h2]
  intro hc
  exact Option.noConfusion (PyResult.ok.inj hc)

/-- C6 (amended): for every body bound to a fixed major-body model other
than Neptune, the magnitude is a pure function of the derived
`(r, delta, alpha)` triple — two observations with equal triples give equal
results.  Neptune's magnitude is a pure function of the triple together with
the observation's timestamp year. -/
theorem claim_C6_determinism :
    (∀ kb ∈ STANDARD_BODIES, kb.2 ≠ IlluminatedBody.neptune →
      ∀ a1 a2 : Astrometric,
        (ReflectionParameters.make a1).r = (ReflectionParameters.make a2).r →
        (ReflectionParameters.make a1).delta = (ReflectionParameters.make a2).delta →
        (ReflectionParameters.make a1).alpha = (ReflectionParameters.make a2).alpha →
        IlluminatedBody.magnitude kb.2 a1 = IlluminatedBody.magnitude kb.2 a2) ∧
    (∀ a1 a2 : Astrometric,
        (ReflectionParameters.make a1).r = (ReflectionParameters.make a2).r →
        (ReflectionParameters.make a1).delta = (ReflectionParameters.make a2).delta →
        (ReflectionParameters.make a1).alpha = (ReflectionParameters.make a2).alpha →
        a1.tYear = a2.tYear →
        IlluminatedBody.magnitude .neptune a1 = IlluminatedBody.magnitude .neptune a2) := by
  constructor
  · intro kb hmem hnep a1 a2 hr hd ha
    fin_cases hmem
    · exact reflectingMagnitude_congr _ (mercury_q_congr ha) hr hd
    · exact reflectingMagnitude_congr _ (mercury_q_congr ha) hr hd
    · exact reflectingMagnitude_congr _ (venus_q_congr ha) hr hd
    · exact reflectingMagnitude_congr _ (venus_q_congr ha) hr hd
    · exact reflectingMagnitude_congr _ (earth_q_congr ha) hr hd
    · exact reflectingMagnitude_congr _ (earth_q_congr ha) hr hd
    · exact reflectingMagnitude_congr _ (mars_q_congr ha) hr hd
    · exact reflectingMagnitude_congr _ (jupiter_q_congr ha) hr hd
    · exact reflectingMagnitude_congr _ (saturn_q_congr ha) hr hd
    · exact reflectingMagnitude_congr _ (uranus_q_congr ha) hr hd
    · exact absurd rfl hnep
    · exact reflectingMagnitude_congr _ (hg_q_congr (-0.45) 0.15 ha) hr hd
    · exact magnitude_proximate_congr 4.83 hd
  · intro a1 a2 hr hd ha hty
    exact reflectingMagnitude_congr _ (neptune_q_congr ha hty) hr hd

/-- Witness for C6 at Mercury's table entry and a pair of identical concrete
observations. -/
theorem claim_C6_witness :
    ((1, IlluminatedBody.mercury) ∈ STANDARD_BODIES) ∧
    IlluminatedBody.magnitude IlluminatedBody.mercury ⟨⟨1, -1, 0⟩, ⟨0, 1, 0⟩, none⟩
      = IlluminatedBody.magnitude IlluminatedBody.mercury ⟨⟨1, -1, 0⟩, ⟨0, 1, 0⟩, none⟩ := by
  have hmem : ((1, IlluminatedBody.mercury) ∈ STANDARD_BODIES) := by
    simp [STANDARD_BODIES]
  exact ⟨hmem, claim_C6_determinism.1 (1, .mercury) hmem
    (fun hc => IlluminatedBody.noConfusion hc)
    ⟨⟨1, -1, 0⟩, ⟨0, 1, 0⟩, none⟩ ⟨⟨1, -1, 0⟩, ⟨0, 1, 0⟩, none⟩ rfl rfl rfl⟩

/-- At zero phase angle the `(H, G)` phase law collapses: `halfTan = tan 0 = 0`,
`φ1 = φ2 = exp 0 = 1`, the logarithm argument is `(1-G) + G = 1`, and
`ln 1 = 0`, so `q` returns exactly `H` — for every slope parameter `G`. -/
theorem hg_q_alpha_zero (h g : ℝ) (p : ReflectionParameters)
    (ha : p.alpha = 0) : HGReflectingBody.q h g p = .ok (some h) := by
  unfold HGReflectingBody.q
  rw [ha, show (0.5 : ℝ) * 0 * DEG2RAD = 0 by ring, Real.tan_zero]
  simp only [powChecked, if_pos (le_refl (0 : ℝ)),
    Real.zero_rpow (by norm_num : (0.63 : ℝ) ≠ 0),
    Real.zero_rpow (by norm_num : (1.22 : ℝ) ≠ 0),
    mul_zero, Real.exp_zero, mul_one, sub_add_cancel, logChecked,
    if_pos (one_pos : (0 : ℝ) < 1), Real.log_one, add_zero]

/-- C7 counterexample: the claim asserts that an observation at zero phase
angle yields `magnitude = H` exactly.  The phase-law term `q` is indeed
exactly `H`, but `magnitude` additionally adds the distance factor
`5*log10(r*delta)`: at the zero-phase geometry with `r = 2`, `delta = 1`,
the magnitude is `H + 5*log10 2 ≠ H`. -/
theorem claim_C7_counterexample :
    (ReflectionParameters.make ⟨⟨1, 0, 0⟩, ⟨1, 0, 0⟩, none⟩).alpha = 0 ∧
    IlluminatedBody.magnitude (.hgReflecting (-0.45) 0.15) ⟨⟨1, 0, 0⟩, ⟨1, 0, 0⟩, none⟩
      ≠ .ok (some (-0.45)) := by
  refine ⟨alpha_parallel, ?_⟩
  have hq := hg_q_alpha_zero (-0.45) 0.15
    (ReflectionParameters.make ⟨⟨1, 0, 0⟩, ⟨1, 0, 0⟩, none⟩) alpha_parallel
  have hrd : (ReflectionParameters.make ⟨⟨1, 0, 0⟩, ⟨1, 0, 0⟩, none⟩).r
      * (ReflectionParameters.make ⟨⟨1, 0, 0⟩, ⟨1, 0, 0⟩, none⟩).delta = 2 := by
    rw [r_parallel, delta_parallel]
    norm_num
  have hmag : IlluminatedBody.magnitude (.hgReflecting (-0.45) 0.15)
      ⟨⟨1, 0, 0⟩, ⟨1, 0, 0⟩, none⟩ = .ok (some (-0.45 + 5 * Real.logb 10 2)) := by
    rw [magnitude_hg]
    simp only [reflectingMagnitude, hq, ReflectionParameters.distanceFactorChecked,
      log10Checked, hrd, if_pos (by norm_num : (0 : ℝ) < 2)]
  rw [hmag]
  intro hc
  have hv := Option.some.inj (PyResult.ok.inj hc)
  have hlog : Real.logb 10 2 = 0 := by linarith
  have : (0 : ℝ) < Real.logb 10 2 :=
    Real.logb_pos (by norm_num) (by norm_num)
  linarith

/-- C7 (amended): for `HGReflectingBody` with `H = -0.45`, `G = 0.15`, an
observation at phase angle exactly `0` has `q = H` exactly (the angle factor
vanishes because `φ1 = φ2 = 1` and `(1-G) + G = 1`, so `ln 1 = 0`), and the
magnitude is `H` plus the distance factor `5*log10(r*delta)` — equal to `H`
exactly when the distance factor is zero. -/
theorem claim_C7_hg (a : Astrometric)
    (ha : (ReflectionParameters.make a).alpha = 0)
    (hrd : 0 < (ReflectionParameters.make a).r * (ReflectionParameters.make a).delta) :
    HGReflectingBody.q (-0.45) 0.15 (ReflectionParameters.make a) = .ok (some (-0.45)) ∧
    IlluminatedBody.magnitude (.hgReflecting (-0.45) 0.15) a
      = .ok (some (-0.45 + 5 * Real.logb 10
          ((ReflectionParameters.make a).r * (ReflectionParameters.make a).delta))) := by
  have hq := hg_q_alpha_zero (-0.45) 0.15 (ReflectionParameters.make a) ha
  refine ⟨hq, ?_⟩
  rw [magnitude_hg]
  simp only [reflectingMagnitude, hq, ReflectionParameters.distanceFactorChecked,
    log10Checked, if_pos hrd]

/-- Witness for C7 at the concrete zero-phase position with `r = 2`,
`delta = 1`. -/
theorem claim_C7_witness :
    (ReflectionParameters.make ⟨⟨1, 0, 0⟩, ⟨1, 0, 0⟩, none⟩).alpha = 0 ∧
    0 < (ReflectionParameters.make ⟨⟨1, 0, 0⟩, ⟨1, 0, 0⟩, none⟩).r
      * (ReflectionParameters.make ⟨⟨1, 0, 0⟩, ⟨1, 0, 0⟩, none⟩).delta ∧
    HGReflectingBody.q (-0.45) 0.15
        (ReflectionParameters.make ⟨⟨1, 0, 0⟩, ⟨1, 0, 0⟩, none⟩) = .ok (some (-0.45)) := by
  have hrd : 0 < (ReflectionParameters.make ⟨⟨1, 0, 0⟩, ⟨1, 0, 0⟩, none⟩).r
      * (ReflectionParameters.make ⟨⟨1, 0, 0⟩, ⟨1, 0, 0⟩, none⟩).delta := by
    rw [r_parallel, delta_parallel]
    norm_num
  exact ⟨alpha_parallel, hrd,
    (claim_C7_hg ⟨⟨1, 0, 0⟩, ⟨1, 0, 0⟩, none⟩ alpha_parallel hrd).1⟩

theorem delta_degenerate :
    (ReflectionParameters.make ⟨⟨1, 0, 0⟩, ⟨0, 0, 0⟩, none⟩).delta = 0 := by
  rw [ReflectionParameters.make_delta]
  show Real.sqrt (0 * 0 + 0 * 0 + 0 * 0) = 0
  rw [show (0 : ℝ) * 0 + 0 * 0 + 0 * 0 = 0 by norm_num]
  exact Real.sqrt_zero

/-- C8 counterexample: two in-invariant inputs on which `magnitude` raises.
First, the invariant `r, delta ≥ 0`, `alpha ∈ [0, 180]` admits `delta = 0`
(observer at the body); there `math.log10(r*delta)` raises `ValueError` for
every reflecting model, here Mercury.  Second, a bound `HGReflectingBody`
with slope parameter `G = -10` (nothing restricts catalog `G` values) makes
the phase-law logarithm argument `11*exp(-3.33) - 10*exp(-1.87) < 0` at
`alpha = 90`, so `math.log` raises even with `r = delta = 1 > 0`. -/
theorem claim_C8_counterexample :
    (0 ≤ (ReflectionParameters.make ⟨⟨1, 0, 0⟩, ⟨0, 0, 0⟩, none⟩).r ∧
      0 ≤ (ReflectionParameters.make ⟨⟨1, 0, 0⟩, ⟨0, 0, 0⟩, none⟩).delta ∧
      0 ≤ (ReflectionParameters.make ⟨⟨1, 0, 0⟩, ⟨0, 0, 0⟩, none⟩).alpha ∧
      (ReflectionParameters.make ⟨⟨1, 0, 0⟩, ⟨0, 0, 0⟩, none⟩).alpha ≤ 180) ∧
    IlluminatedBody.magnitude .mercury ⟨⟨1, 0, 0⟩, ⟨0, 0, 0⟩, none⟩ = .raises ∧
    (0 < (ReflectionParameters.make ⟨⟨1, -1, 0⟩, ⟨0, 1, 0⟩, none⟩).r ∧
      0 < (ReflectionParameters.make ⟨⟨1, -1, 0⟩, ⟨0, 1, 0⟩, none⟩).delta) ∧
    IlluminatedBody.magnitude (.hgReflecting 0 (-10)) ⟨⟨1, -1, 0⟩, ⟨0, 1, 0⟩, none⟩
      = .raises := by
  refine ⟨⟨ReflectionParameters.r_make_nonneg _, ReflectionParameters.delta_make_nonneg _,
    (ReflectionParameters.alpha_make_mem _).1, (ReflectionParameters.alpha_make_mem _).2⟩,
    ?_, ?_, ?_⟩
  · -- Mercury at delta = 0 raises through log10(r * 0)
    rw [magnitude_mercury]
    simp only [reflectingMagnitude, Mercury.q, ReflectionParameters.distanceFactorChecked,
      log10Checked, delta_degenerate, mul_zero, if_neg (lt_irrefl (0 : ℝ))]
  · -- positive geometry for the second input
    have hsum : (⟨1, -1, 0⟩ : Vec3) + ⟨0, 1, 0⟩ ≠ 0 := by
      intro h
      have hx := congrArg Vec3.x h
      simp only [Vec3.add_x, Vec3.zero_x] at hx
      norm_num at hx
    have hposv : (⟨0, 1, 0⟩ : Vec3) ≠ 0 := by
      intro h
      have hy := congrArg Vec3.y h
      simp only [Vec3.zero_y] at hy
      norm_num at hy
    exact ⟨length_of_pos hsum, length_of_pos hposv⟩
  · -- HGReflectingBody(0, -10) raises at alpha = 90
    rw [magnitude_hg]
    have ha := alpha_quarter none
    have hq : HGReflectingBody.q 0 (-10)
        (ReflectionParameters.make ⟨⟨1, -1, 0⟩, ⟨0, 1, 0⟩, none⟩) = .raises := by
      unfold HGReflectingBody.q
      rw [ha, show (0.5 : ℝ) * 90 * DEG2RAD = Real.pi / 4 by unfold DEG2RAD; ring,
        Real.tan_pi_div_four]
      simp only [powChecked, if_pos (by norm_num : (0 : ℝ) ≤ 1), Real.one_rpow]
      have harg : (1 - (-10)) * Real.exp (-3.33 * 1) + (-10) * Real.exp (-1.87 * 1) < 0 := by
        have h1 : Real.exp (-3.33) * Real.exp 1.46 = Real.exp (-1.87) := by
          rw [← Real.exp_add]
          norm_num
        have he : (2.46 : ℝ) ≤ Real.exp 1.46 := by
          have := Real.add_one_le_exp (1.46 : ℝ)
          linarith
        have hp1 := Real.exp_pos (-3.33 : ℝ)
        have hp2 := Real.exp_pos (-1.87 : ℝ)
        rw [mul_one, mul_one]
        nlinarith [h1, he, hp1, hp2]
      rw [logChecked, if_neg (by linarith : ¬(0 : ℝ) <
        (1 - (-10)) * Real.exp (-3.33 * 1) + (-10) * Real.exp (-1.87 * 1))]
    simp only [reflectingMagnitude, hq]

/-- C8 (amended): with a nondegenerate geometry — `r > 0` and `delta > 0`
(the derived `alpha` is automatically in `[0, 180]`) — and with any bound
illumination model whose `HGReflectingBody` slope parameter, if present, lies
in the standard range `[0, 1]`, evaluating `magnitude` never raises: every
path yields a value or the explicit undefined result. -/
theorem claim_C8_no_raise (b : IlluminatedBody) (a : Astrometric)
    (hG : ∀ hh gg, b = .hgReflecting hh gg → 0 ≤ gg ∧ gg ≤ 1)
    (hr : 0 < (ReflectionParameters.make a).r)
    (hd : 0 < (ReflectionParameters.make a).delta) :
    IlluminatedBody.magnitude b a ≠ .raises := by
  have ha := ReflectionParameters.alpha_make_mem a
  have hrd : 0 < (ReflectionParameters.make a).r * (ReflectionParameters.make a).delta :=
    mul_pos hr hd
  cases b with
  | distantLuminous m =>
    rw [magnitude_distant]
    intro hc
    exact PyResult.noConfusion hc
  | proximateLuminous m => exact magnitude_proximate_ne_raises m a hd
  | mercury => exact reflectingMagnitude_ne_raises _ _ (mercury_q_ne_raises _) hrd
  | venus => exact reflectingMagnitude_ne_raises _ _ (venus_q_ne_raises _) hrd
  | earth => exact reflectingMagnitude_ne_raises _ _ (earth_q_ne_raises _) hrd
  | mars => exact reflectingMagnitude_ne_raises _ _ (mars_q_ne_raises _) hrd
  | jupiter =>
    exact reflectingMagnitude_ne_raises _ _ (jupiter_q_ne_raises _ ha.1 ha.2) hrd
  | saturn => exact reflectingMagnitude_ne_raises _ _ (saturn_q_ne_raises _) hrd
  | uranus => exact reflectingMagnitude_ne_raises _ _ (uranus_q_ne_raises _) hrd
  | neptune => exact reflectingMagnitude_ne_raises _ _ (neptune_q_ne_raises _) hrd
  | hgReflecting hh gg =>
    obtain ⟨hg0, hg1⟩ := hG hh gg rfl
    exact reflectingMagnitude_ne_raises _ _
      (hg_q_ne_raises hh gg _ hg0 hg1 ha.1 ha.2) hrd
  | solarActivated g k => exact magnitude_solar_ne_raises g k a hr hd

/-- Witness for C8: Pluto's model (the table's `HGReflectingBody(-0.45, 0.15)`,
with `G = 0.15 ∈ [0, 1]`) at the quarter-phase geometry with `r = delta = 1`
does not raise. -/
theorem claim_C8_witness :
    (0 < (ReflectionParameters.make ⟨⟨1, -1, 0⟩, ⟨0, 1, 0⟩, none⟩).r ∧
      0 < (ReflectionParameters.make ⟨⟨1, -1, 0⟩, ⟨0, 1, 0⟩, none⟩).delta) ∧
    IlluminatedBody.magnitude (.hgReflecting (-0.45) 0.15) ⟨⟨1, -1, 0⟩, ⟨0, 1, 0⟩, none⟩
      ≠ .raises := by
  have hsum : (⟨1, -1, 0⟩ : Vec3) + ⟨0, 1, 0⟩ ≠ 0 := by
    intro h
    have hx := congrArg Vec3.x h
    simp only [Vec3.add_x, Vec3.zero_x] at hx
    norm_num at hx
  have hposv : (⟨0, 1, 0⟩ : Vec3) ≠ 0 := by
    intro h
    have hy := congrArg Vec3.y h
    simp only [Vec3.zero_y] at hy
    norm_num at hy
  have hr : 0 < (ReflectionParameters.make ⟨⟨1, -1, 0⟩, ⟨0, 1, 0⟩, none⟩).r :=
    length_of_pos hsum
  have hd : 0 < (ReflectionParameters.make ⟨⟨1, -1, 0⟩, ⟨0, 1, 0⟩, none⟩).delta :=
    length_of_pos hposv
  refine ⟨⟨hr, hd⟩, claim_C8_no_raise (.hgReflecting (-0.45) 0.15)
    ⟨⟨1, -1, 0⟩, ⟨0, 1, 0⟩, none⟩ ?_ hr hd⟩
  intro hh gg hc
  injection hc with h1 h2
  constructor
  · rw [← h2]; norm_num
  · rw [← h2]; norm_num

/-- C10: for every ecliptic longitude — including values below 0 and at or
above 360 degrees — `classicalLongitude` returns the zodiac sector at index
`⌊longitude/30⌋ mod 12` (Python's nonnegative integer remainder) together with
the remainder `longitude - 30*⌊longitude/30⌋`, which always lies in
`[0, 30)`; concretely, `-15°` falls in Pisces with remainder `15` and `370°`
falls in Aries with remainder `10`. -/
theorem claim_C10_classical (e : EclipticPosition) :
    ZODIAC.get? ((⌊e.longitude / 30⌋ % 12).toNat) = some e.classicalLongitude.1 ∧
    e.classicalLongitude.2 = e.longitude - 30 * ((⌊e.longitude / 30⌋ : ℤ) : ℝ) ∧
    0 ≤ e.classicalLongitude.2 ∧ e.classicalLongitude.2 < 30 ∧
    (⟨0, 0, -15, 0⟩ : EclipticPosition).classicalLongitude.1.name = "Psc" ∧
    (⟨0, 0, -15, 0⟩ : EclipticPosition).classicalLongitude.2 = 15 ∧
    (⟨0, 0, 370, 0⟩ : EclipticPosition).classicalLongitude.1.name = "Ari" ∧
    (⟨0, 0, 370, 0⟩ : EclipticPosition).classicalLongitude.2 = 10 := by
  have hgen : ∀ e' : EclipticPosition,
      ZODIAC.get? ((⌊e'.longitude / 30⌋ % 12).toNat) = some e'.classicalLongitude.1 := by
    intro e'
    exact List.get?_eq_get (by
      have h1 : 0 ≤ ⌊e'.longitude / 30⌋ % 12 := Int.emod_nonneg _ (by norm_num)
      have h2 : ⌊e'.longitude / 30⌋ % 12 < 12 := Int.emod_lt_of_pos _ (by norm_num)
      simp only [ZODIAC, List.length]
      omega)
  have hrem : ∀ e' : EclipticPosition,
      0 ≤ e'.classicalLongitude.2 ∧ e'.classicalLongitude.2 < 30 := by
    intro e'
    have h2 : e'.classicalLongitude.2 = 30 * Int.fract (e'.longitude / 30) := by
      show e'.longitude - 30 * ((⌊e'.longitude / 30⌋ : ℤ) : ℝ)
        = 30 * Int.fract (e'.longitude / 30)
      unfold Int.fract
      ring
    rw [h2]
    constructor
    · exact mul_nonneg (by norm_num) (Int.fract_nonneg _)
    · nlinarith [Int.fract_lt_one (e'.longitude / 30)]
  have hf1 : ⌊(-15 : ℝ) / 30⌋ = -1 := by
    apply Int.floor_eq_iff.2
    constructor <;> norm_num
  have hf2 : ⌊(370 : ℝ) / 30⌋ = 12 := by
    apply Int.floor_eq_iff.2
    constructor <;> norm_num
  have hname1 : (⟨0, 0, -15, 0⟩ : EclipticPosition).classicalLongitude.1
      = (⟨"Psc", "♓"⟩ : Zodiac) := by
    have hc1 := hgen ⟨0, 0, -15, 0⟩
    dsimp only at hc1
    rw [hf1] at hc1
    have hv : ZODIAC.get? (((-1 : ℤ) % 12).toNat) = some (⟨"Psc", "♓"⟩ : Zodiac) := rfl
    rw [hv] at hc1
    exact (Option.some.inj hc1).symm
  have hname2 : (⟨0, 0, 370, 0⟩ : EclipticPosition).classicalLongitude.1
      = (⟨"Ari", "♈"⟩ : Zodiac) := by
    have hc2 := hgen ⟨0, 0, 370, 0⟩
    dsimp only at hc2
    rw [hf2] at hc2
    have hv : ZODIAC.get? (((12 : ℤ) % 12).toNat) = some (⟨"Ari", "♈"⟩ : Zodiac) := rfl
    rw [hv] at hc2
    exact (Option.some.inj hc2).symm
  refine ⟨hgen e, rfl, (hrem e).1, (hrem e).2, ?_, ?_, ?_, ?_⟩
  · rw [hname1]
  · show (-15 : ℝ) - 30 * ((⌊(-15 : ℝ) / 30⌋ : ℤ) : ℝ) = 15
    rw [hf1]
    norm_num
  · rw [hname2]
  · show (370 : ℝ) - 30 * ((⌊(370 : ℝ) / 30⌋ : ℤ) : ℝ) = 10
    rw [hf2]
    norm_num
